import Mathlib

/-!
Verification of the Ralph Wiggum adaptive control loop.

Shallow embedding of the core subsystem:
* `src/scripts/types.ts` — shared data model (`RalphState`, `TranscriptAnalysis`,
  `StrategyResult`, `RalphMemory`, `ERROR_PATTERNS`);
* `src/scripts/strategy-engine.ts` — `determineBaseStrategy`, `getStrategyGuidance`,
  `determineStrategy`;
* `src/scripts/analyze-transcript.ts` — `extractFullContent`, `findErrors`,
  `findRepeatedErrors`;
* `src/scripts/build-context.ts` — `buildContext`;
* `src/scripts/setup-ralph-loop.sh` (embedded update-memory script) — `updateMemory`;
* the stop hook shell script — `hookStep`, the per-turn orchestrator decision.

External stores (memorai) are modelled as inputs: query results appear as fields of
the input structures, and writes are recorded as flags on the result structures.
-/

namespace Ralph

/-! ## Data model (src/scripts/types.ts) -/

/-- `type Strategy = "explore" | "focused" | "cleanup" | "recovery"`. -/
inductive Strategy
  | explore
  | focused
  | cleanup
  | recovery
deriving DecidableEq, Repr

/-- The literal string value of a `Strategy` as it appears in the TypeScript union. -/
def Strategy.name : Strategy → String
  | .explore => "explore"
  | .focused => "focused"
  | .cleanup => "cleanup"
  | .recovery => "recovery"

/-- `strategy.strategy.toUpperCase()` as used by the context builder banner. -/
def Strategy.upper : Strategy → String
  | .explore => "EXPLORE"
  | .focused => "FOCUSED"
  | .cleanup => "CLEANUP"
  | .recovery => "RECOVERY"

/-- `interface ErrorEntry { pattern: string; sample: string }`. -/
structure ErrorEntry where
  pattern : String
  sample : String
deriving DecidableEq, Repr

/-- `interface RepeatedError { pattern: string; count: number }`. -/
structure RepeatedError where
  pattern : String
  count : Nat
deriving DecidableEq, Repr

/-- `interface TranscriptAnalysis` from types.ts. -/
structure TranscriptAnalysis where
  errors : List ErrorEntry
  repeated_errors : List RepeatedError
  files_modified : List String
  tests_run : Bool
  tests_passed : Bool
  tests_failed : Bool
  phase_completions : List String
  meaningful_changes : Bool
deriving DecidableEq, Repr

/-- The `strategy` sub-record of `RalphState`. -/
structure StrategyField where
  current : Strategy
  changed_at : Nat
deriving DecidableEq, Repr

/-- The `progress` sub-record of `RalphState`; `velocity` is one of
"fast" | "normal" | "slow" | "stalled". -/
structure ProgressField where
  stuck_count : Nat
  velocity : String
  last_meaningful_change : Nat
deriving DecidableEq, Repr

/-- `interface Phase` from types.ts. -/
structure Phase where
  name : String
  completed : Bool
deriving DecidableEq, Repr

/-- `interface RalphState` from types.ts. `completion_promise : string | null`
is modelled as `Option String` (`none` = JSON `null`). -/
structure RalphState where
  active : Bool
  iteration : Nat
  max_iterations : Nat
  completion_promise : Option String
  started_at : String
  checkpoint_interval : Nat
  checkpoint_mode : String
  strategy : StrategyField
  progress : ProgressField
  phases : List Phase
  prompt_text : String
deriving DecidableEq, Repr

/-- `interface StrategyResult`; `action` is the literal union
`"continue" | "switch"`, kept as a string exactly as in the source. -/
structure StrategyResult where
  strategy : Strategy
  reason : String
  action : String
  guidance : List String
deriving DecidableEq, Repr

/-! ## Strategy engine (src/scripts/strategy-engine.ts) -/

/-- `interface StrategyInput { state: RalphState; analysis: TranscriptAnalysis }`. -/
structure StrategyInput where
  state : RalphState
  analysis : TranscriptAnalysis
deriving DecidableEq, Repr

/-- `const EXPLORE_END = 10`. -/
def EXPLORE_END : Nat := 10

/-- `const FOCUSED_END = 35`. -/
def FOCUSED_END : Nat := 35

/-- `const REPEATED_ERROR_THRESHOLD = 3`. -/
def REPEATED_ERROR_THRESHOLD : Nat := 3

/-- `const STUCK_THRESHOLD = 5`. -/
def STUCK_THRESHOLD : Nat := 5

/-- `determineBaseStrategy(iteration)`: phase from the iteration number alone. -/
def determineBaseStrategy (iteration : Nat) : Strategy :=
  if iteration ≤ EXPLORE_END then
    .explore
  else if iteration ≤ FOCUSED_END then
    .focused
  else
    .cleanup

/-- `getStrategyGuidance(strategy, context)`: the fixed per-strategy checklist;
for recovery it additionally names the top repeated-error label. -/
def getStrategyGuidance (strategy : Strategy) (context : StrategyInput) : List String :=
  match strategy with
  | .explore =>
      ["Explore the problem space broadly",
       "Try different approaches to understand the task",
       "Don't commit to a single solution yet",
       "Document what you learn for later iterations"]
  | .focused =>
      ["Commit to the best approach identified during exploration",
       "Implement incrementally with tests",
       "If stuck on an approach, pivot quickly",
       "Track progress against milestones"]
  | .cleanup =>
      ["Focus on finishing incomplete work",
       "Fix remaining bugs and edge cases",
       "Ensure all tests pass",
       "Prepare final deliverables",
       "Time is limited - prioritize ruthlessly"]
  | .recovery =>
      ["STOP and analyze what's going wrong",
       "Review failed attempts in memory",
       "Try a fundamentally different approach"]
      ++ (match context.analysis.repeated_errors with
          | topError :: _ =>
              [s!"Focus on fixing: {topError.pattern} ({topError.count} occurrences)"]
          | [] => [])
      ++ ["Consider simplifying the problem"]

/-- `determineStrategy(input)`: recovery override, then phase-based strategy,
with the switch/continue action and explanatory reason. -/
def determineStrategy (input : StrategyInput) : StrategyResult :=
  let state := input.state
  let analysis := input.analysis
  let iteration := state.iteration
  let currentStrategy := state.strategy.current
  let hasRepeatedErrors : Bool :=
    analysis.repeated_errors.any (fun e => REPEATED_ERROR_THRESHOLD ≤ e.count)
  let isStuck : Bool := STUCK_THRESHOLD ≤ state.progress.stuck_count
  let noMeaningfulChanges : Bool := !analysis.meaningful_changes
  if hasRepeatedErrors || isStuck then
    -- 'Recovery takes precedence'
    let reason :=
      if hasRepeatedErrors then
        match analysis.repeated_errors with
        | e :: _ => s!"Detected {e.count}x repeated \"{e.pattern}\" errors"
        | [] => ""  -- unreachable: hasRepeatedErrors forces a nonempty list
      else
        s!"Stuck for {state.progress.stuck_count} iterations without meaningful progress"
    { strategy := .recovery
      reason := reason
      action := if currentStrategy = .recovery then "continue" else "switch"
      guidance := getStrategyGuidance .recovery input }
  else
    let baseStrategy := determineBaseStrategy iteration
    let shouldSwitch : Bool :=
      decide (baseStrategy ≠ currentStrategy) && decide (currentStrategy ≠ .recovery)
    let reason :=
      if shouldSwitch then
        match baseStrategy with
        | .explore =>
            s!"Iteration {iteration}: Exploration phase (iterations 1-{EXPLORE_END})"
        | .focused =>
            s!"Iteration {iteration}: Focused implementation phase (iterations {EXPLORE_END + 1}-{FOCUSED_END})"
        | .cleanup =>
            s!"Iteration {iteration}: Cleanup phase (iterations {FOCUSED_END + 1}+)"
        | .recovery =>
            -- the TS switch's default arm; unreachable for a base strategy
            s!"Iteration {iteration}: Continuing {baseStrategy.name} phase"
      else
        s!"Continuing {baseStrategy.name} phase (iteration {iteration})"
    let reason :=
      if analysis.meaningful_changes then
        reason ++ " - making progress"
      else if noMeaningfulChanges && decide (1 < iteration) then
        reason ++ " - no meaningful changes detected, consider adjusting approach"
      else
        reason
    { strategy := baseStrategy
      reason := reason
      action := if shouldSwitch then "switch" else "continue"
      guidance := getStrategyGuidance baseStrategy input }

/-! ## Transcript model and analyzer (src/scripts/analyze-transcript.ts)

A transcript is an ordered list of role-tagged messages whose content is a list
of blocks (free text or a structured tool-invocation payload, modelled by its
JSON serialization). -/

/-- The `role` tag of a transcript message. -/
inductive Role
  | user
  | assistant
  | system
deriving DecidableEq, Repr

/-- A content block: `{ type: "text", text }` or a block carrying a `tool_use`
payload (kept as its serialized JSON string). -/
inductive ContentBlock
  | text (text : String)
  | tool_use (serialized : String)
deriving DecidableEq, Repr

/-- `interface TranscriptMessage { role; message: { content } }`. -/
structure TranscriptMessage where
  role : Role
  content : List ContentBlock
deriving DecidableEq, Repr

/-- `Array.prototype.join("\n")` — also the jq `join("\n")` in the stop hook. -/
def joinNL : List String → String
  | [] => ""
  | [a] => a
  | a :: b :: rest => a ++ "\n" ++ joinNL (b :: rest)

/-- `JSON.stringify(block)` for the fall-through arm of `extractFullContent`
(reached only for a text block whose text is falsy, i.e. empty). -/
def blockJson : ContentBlock → String
  | .text t => "\x7b\"type\":\"text\",\"text\":\"" ++ t ++ "\"\x7d"
  | .tool_use s => "\x7b\"tool_use\":" ++ s ++ "\x7d"

/-- `extractTextContent(message)`: text blocks with non-empty text, joined. -/
def extractTextContent (msg : TranscriptMessage) : String :=
  joinNL (msg.content.filterMap (fun block =>
    match block with
    | .text t => if t ≠ "" then some t else none
    | .tool_use _ => none))

/-- `extractFullContent(message)`: text blocks plus serialized tool payloads. -/
def extractFullContent (msg : TranscriptMessage) : String :=
  joinNL (msg.content.map (fun block =>
    match block with
    | .text t => if t ≠ "" then t else blockJson block
    | .tool_use s => s))

/-! ### Regex embedding

Each `RegExp` in the fixed `ERROR_PATTERNS` table is embedded as its first-match
semantics: a function from the subject character list to the `(index, length)`
of the leftmost match, or `none`. Case-insensitive (`/i`) matching compares
lowered characters; the `\s` class is modelled by the common ASCII whitespace
characters. -/

/-- Caseless prefix test: `needle` (already lowercase) begins `hay`. -/
def prefixMatchLower : List Char → List Char → Bool
  | [], _ => true
  | _ :: _, [] => false
  | p :: ps, c :: cs => p = c.toLower && prefixMatchLower ps cs

/-- JS `\s` (restricted to its ASCII members). -/
def isWsChar (c : Char) : Bool :=
  c = ' ' || c = '\t' || c = '\n' || c = '\r' || c = '\x0b' || c = '\x0c'

/-- Leftmost position where the position-matcher `m` succeeds, with its
match length. -/
def firstMatchPos (m : List Char → Option Nat) (l : List Char) : Option (Nat × Nat) :=
  ((List.range (l.length + 1)).filterMap
    (fun i => (m (l.drop i)).map (fun len => (i, len)))).head?

/-- Position matcher for a caseless literal substring. -/
def posSubLower (needle : List Char) (l : List Char) : Option Nat :=
  if prefixMatchLower needle l then some needle.length else none

/-- The embedding of a caseless substring `RegExp` such as `/SyntaxError:/i`. -/
def regexOfSubLower (needle : String) : List Char → Option (Nat × Nat) :=
  firstMatchPos (posSubLower needle.data)

/-- Position matcher for `/error TS\d+:/i`. -/
def posErrorTS (l : List Char) : Option Nat :=
  if prefixMatchLower "error ts".data l then
    let rest := l.drop 8
    let ds := rest.takeWhile Char.isDigit
    if 0 < ds.length then
      match rest.drop ds.length with
      | ':' :: _ => some (8 + ds.length + 1)
      | _ => none
    else none
  else none

/-- Last caseless occurrence of `needle` in `l` (for the greedy `.*`). -/
def findLastSubLower (needle : List Char) (l : List Char) : Option Nat :=
  ((List.range (l.length + 1)).filter
    (fun i => prefixMatchLower needle (l.drop i))).getLast?

/-- Position matcher for `/FAILED.*test/i`; `.` does not cross line
terminators, and the greedy `.*` runs to the last `test` on the line. -/
def posFailedTest (l : List Char) : Option Nat :=
  if prefixMatchLower "failed".data l then
    let lineRest := (l.drop 6).takeWhile (fun c => c ≠ '\n' && c ≠ '\r')
    match findLastSubLower "test".data lineRest with
    | some i => some (6 + i + 4)
    | none => none
  else none

/-- Position matcher for `/timed?\s*out/i`. -/
def posTimeout (l : List Char) : Option Nat :=
  if prefixMatchLower "time".data l then
    let rest := l.drop 4
    let dLen := match rest with
      | c :: _ => if c.toLower = 'd' then 1 else 0
      | [] => 0
    let rest2 := rest.drop dLen
    let ws := rest2.takeWhile isWsChar
    if prefixMatchLower "out".data (rest2.drop ws.length) then
      some (4 + dLen + ws.length + 3)
    else none
  else none

/-- One row of the `ERROR_PATTERNS` table: `{ regex, label }`. -/
structure ErrorPattern where
  regex : List Char → Option (Nat × Nat)
  label : String

/-- `export const ERROR_PATTERNS` from types.ts, in source order. -/
def ERROR_PATTERNS : List ErrorPattern :=
  [{ regex := firstMatchPos posErrorTS, label := "TypeScript compilation error" },
   { regex := regexOfSubLower "syntaxerror:", label := "JavaScript syntax error" },
   { regex := regexOfSubLower "modulenotfounderror:", label := "Python import error" },
   { regex := firstMatchPos posFailedTest, label := "Test failure" },
   { regex := firstMatchPos posTimeout, label := "Timeout error" },
   { regex := regexOfSubLower "enoent:", label := "File not found" },
   { regex := regexOfSubLower "permission denied", label := "Permission error" },
   { regex := regexOfSubLower "cannot find module", label := "Module resolution error" },
   { regex := regexOfSubLower "undefined is not", label := "Undefined reference error" },
   { regex := regexOfSubLower "maximum call stack", label := "Stack overflow" }]

/-- First case-sensitive occurrence of `needle` in `l` (JS `String.indexOf`). -/
def findSubExact (needle : List Char) (l : List Char) : Option Nat :=
  ((List.range (l.length + 1)).filter
    (fun i => needle.isPrefixOf (l.drop i))).head?

/-- The bounded context sample around a match: `content.indexOf(match[0])`,
20 characters before, 50 after, newlines flattened, trimmed, and
ellipsis-truncated past 100 characters. -/
def sampleAt (content : String) (pos len : Nat) : String :=
  let matched := (content.data.drop pos).take len
  let matchIndex := (findSubExact matched content.data).getD 0
  let start := matchIndex - 20
  let stop := min content.data.length (matchIndex + len + 50)
  let sample := (String.mk (((content.data.drop start).take (stop - start)).map
      (fun c => if c = '\n' then ' ' else c))).trim
  if 100 < sample.length then sample.take 100 ++ "..." else sample

/-- The inner loop body of `findErrors`: one table row applied to one
message's content, yielding at most one `ErrorEntry`. -/
def errorsOfMessage (content : String) (pattern : ErrorPattern) : Option ErrorEntry :=
  match pattern.regex content.data with
  | some (matchIndex, matchLen) =>
      some { pattern := pattern.label, sample := sampleAt content matchIndex matchLen }
  | none => none

/-- `findErrors(messages)`: every table signature is tried against every
message's full content; each hit records one entry. -/
def findErrors (messages : List TranscriptMessage) : List ErrorEntry :=
  messages.flatMap (fun msg =>
    ERROR_PATTERNS.filterMap (errorsOfMessage (extractFullContent msg)))

/-- One step of the JS `Map` count: increment `k` in place or append `(k, 1)`. -/
def bump (k : String) : List (String × Nat) → List (String × Nat)
  | [] => [(k, 1)]
  | (k', n) :: rest =>
      if k' = k then (k', n + 1) :: rest else (k', n) :: bump k rest

/-- The `counts` map of `findRepeatedErrors`, as an insertion-ordered
association list (the semantics of a JS `Map`). -/
def tally (errors : List ErrorEntry) : List (String × Nat) :=
  errors.foldl (fun counts e => bump e.pattern counts) []

/-- `findRepeatedErrors(errors)`: labels with count ≥ 2, sorted by count
descending (JS sort is stable). -/
def findRepeatedErrors (errors : List ErrorEntry) : List RepeatedError :=
  (((tally errors).filter (fun pc => 2 ≤ pc.2)).map
    (fun pc => RepeatedError.mk pc.1 pc.2)).mergeSort
    (fun a b => b.count ≤ a.count)

/-! ### Counting lemmas for the analyzer -/

/-- Number of error entries recorded under a given label. -/
def countLabel (k : String) (errors : List ErrorEntry) : Nat :=
  (errors.filter (fun e => e.pattern = k)).length

/-- Value stored for key `k` in the association-list counts map (0 if absent). -/
def lookupCount (k : String) : List (String × Nat) → Nat
  | [] => 0
  | (k', n) :: rest => if k' = k then n else lookupCount k rest

/-- Keys of the counts map. -/
def keysOf (m : List (String × Nat)) : List String :=
  m.map Prod.fst

lemma lookupCount_bump_self (k : String) (m : List (String × Nat)) :
    lookupCount k (bump k m) = lookupCount k m + 1 := by
  induction m with
  | nil => simp [bump, lookupCount]
  | cons hd tl ih =>
      obtain ⟨k', n⟩ := hd
      by_cases h : k' = k
      · subst h; simp [bump, lookupCount]
      · simp [bump, h, lookupCount, ih]

lemma lookupCount_bump_ne {k' k : String} (m : List (String × Nat)) (h : k' ≠ k) :
    lookupCount k' (bump k m) = lookupCount k' m := by
  have hkk : ¬ (k = k') := fun hh => h hh.symm
  induction m with
  | nil => simp [bump, lookupCount, hkk]
  | cons hd tl ih =>
      obtain ⟨k'', n⟩ := hd
      by_cases hk : k'' = k
      · simp [bump, hk, lookupCount, hkk]
      · simp only [bump, if_neg hk, lookupCount]
        by_cases hk' : k'' = k'
        · simp [hk']
        · simp [hk', ih]

lemma keysOf_bump (k : String) (m : List (String × Nat)) :
    keysOf (bump k m) = if k ∈ keysOf m then keysOf m else keysOf m ++ [k] := by
  induction m with
  | nil => simp [bump, keysOf]
  | cons hd tl ih =>
      obtain ⟨k', n⟩ := hd
      by_cases h : k' = k
      · subst h; simp [bump, keysOf]
      · have hm : (k ∈ k' :: tl.map Prod.fst) ↔ (k ∈ tl.map Prod.fst) := by
          constructor
          · intro hmem
            rcases List.mem_cons.mp hmem with he | ht
            · exact absurd he.symm h
            · exact ht
          · exact fun ht => List.mem_cons_of_mem _ ht
        simp only [bump, if_neg h, keysOf, List.map_cons] at ih ⊢
        rw [ih]
        simp only [hm]
        by_cases hmem : k ∈ tl.map Prod.fst
        · rw [if_pos hmem, if_pos hmem]
        · rw [if_neg hmem, if_neg hmem, List.cons_append]

lemma nodup_keysOf_bump {k : String} {m : List (String × Nat)}
    (h : (keysOf m).Nodup) : (keysOf (bump k m)).Nodup := by
  rw [keysOf_bump]
  split
  · exact h
  · rename_i hnot
    simp [List.nodup_append, h, hnot]

lemma mem_lookupCount {k : String} {n : Nat} {m : List (String × Nat)}
    (hN : (keysOf m).Nodup) (hm : (k, n) ∈ m) : lookupCount k m = n := by
  induction m with
  | nil => cases hm
  | cons hd tl ih =>
      obtain ⟨k', n'⟩ := hd
      have hN1 : k' ∉ keysOf tl := by
        rw [show keysOf ((k', n') :: tl) = k' :: keysOf tl from rfl,
          List.nodup_cons] at hN
        exact hN.1
      have hN2 : (keysOf tl).Nodup := by
        rw [show keysOf ((k', n') :: tl) = k' :: keysOf tl from rfl,
          List.nodup_cons] at hN
        exact hN.2
      rcases List.mem_cons.mp hm with heq | htl
      · cases heq
        simp [lookupCount]
      · by_cases hk : k' = k
        · exfalso
          apply hN1
          rw [hk]
          exact List.mem_map.mpr ⟨(k, n), htl, rfl⟩
        · simp [lookupCount, hk, ih hN2 htl]

lemma foldl_bump_lookup (es : List ErrorEntry) :
    ∀ (m : List (String × Nat)) (k : String),
      lookupCount k (es.foldl (fun c e => bump e.pattern c) m) =
        lookupCount k m + countLabel k es := by
  induction es with
  | nil => intro m k; simp [countLabel]
  | cons e rest ih =>
      intro m k
      simp only [List.foldl_cons]
      rw [ih]
      by_cases h : e.pattern = k
      · rw [h, lookupCount_bump_self]
        simp [countLabel, List.filter_cons, h]
        omega
      · rw [lookupCount_bump_ne m (fun hh => h hh.symm)]
        simp [countLabel, List.filter_cons, h]

lemma foldl_bump_nodup (es : List ErrorEntry) :
    ∀ (m : List (String × Nat)), (keysOf m).Nodup →
      (keysOf (es.foldl (fun c e => bump e.pattern c) m)).Nodup := by
  induction es with
  | nil => intro m h; exact h
  | cons e rest ih =>
      intro m h
      simp only [List.foldl_cons]
      exact ih _ (nodup_keysOf_bump h)

lemma tally_count {k : String} {n : Nat} {es : List ErrorEntry}
    (hm : (k, n) ∈ tally es) : n = countLabel k es := by
  have hN : (keysOf (tally es)).Nodup :=
    foldl_bump_nodup es [] (by simp [keysOf])
  have h := mem_lookupCount hN hm
  rw [show tally es = es.foldl (fun c e => bump e.pattern c) [] from rfl,
    foldl_bump_lookup] at h
  simpa [lookupCount] using h.symm

lemma countLabel_errorsOf_cons_ne {k : String} (c : String) (q : ErrorPattern)
    (tbl : List ErrorPattern) (hq : q.label ≠ k) :
    countLabel k ((q :: tbl).filterMap (errorsOfMessage c)) =
      countLabel k (tbl.filterMap (errorsOfMessage c)) := by
  cases hmatch : q.regex c.data with
  | none => simp [List.filterMap_cons, errorsOfMessage, hmatch]
  | some pr =>
      obtain ⟨i, len⟩ := pr
      simp [List.filterMap_cons, errorsOfMessage, hmatch, countLabel,
        List.filter_cons, hq]

lemma countLabel_table_notmem {k : String} (c : String) (tbl : List ErrorPattern)
    (h : ∀ q ∈ tbl, q.label ≠ k) :
    countLabel k (tbl.filterMap (errorsOfMessage c)) = 0 := by
  induction tbl with
  | nil => simp [countLabel]
  | cons q rest ih =>
      rw [countLabel_errorsOf_cons_ne c q rest (h q (List.mem_cons_self q rest))]
      exact ih (fun q' hq' => h q' (List.mem_cons_of_mem q hq'))

lemma countLabel_table (tbl : List ErrorPattern)
    (hN : (tbl.map ErrorPattern.label).Nodup) (p : ErrorPattern) (hp : p ∈ tbl)
    (c : String) :
    countLabel p.label (tbl.filterMap (errorsOfMessage c)) =
      if (p.regex c.data).isSome then 1 else 0 := by
  induction tbl with
  | nil => cases hp
  | cons q rest ih =>
      rcases List.mem_cons.mp hp with heq | htl
      · subst heq
        have hrest : ∀ q' ∈ rest, q'.label ≠ p.label := by
          intro q' hq' hcontra
          simp only [List.map_cons, List.nodup_cons] at hN
          exact hN.1 (hcontra ▸ List.mem_map.mpr ⟨q', hq', rfl⟩)
        cases hmatch : p.regex c.data with
        | none =>
            simp [List.filterMap_cons, errorsOfMessage, hmatch,
              countLabel_table_notmem c rest hrest]
        | some pr =>
            obtain ⟨i, len⟩ := pr
            have h0 := countLabel_table_notmem (k := p.label) c rest hrest
            simp [List.filterMap_cons, errorsOfMessage, hmatch, countLabel,
              List.filter_cons] at h0 ⊢
            simpa [countLabel] using h0
      · have hqne : q.label ≠ p.label := by
          intro hcontra
          simp only [List.map_cons, List.nodup_cons] at hN
          exact hN.1 (hcontra ▸ List.mem_map.mpr ⟨p, htl, rfl⟩)
        rw [countLabel_errorsOf_cons_ne c q rest hqne]
        have hN' : (rest.map ErrorPattern.label).Nodup := by
          simp only [List.map_cons, List.nodup_cons] at hN
          exact hN.2
        exact ih hN' htl

lemma countLabel_findErrors (msgs : List TranscriptMessage) (p : ErrorPattern)
    (hp : p ∈ ERROR_PATTERNS) :
    countLabel p.label (findErrors msgs) =
      (msgs.filter (fun m => (p.regex (extractFullContent m).data).isSome)).length := by
  have hN : (ERROR_PATTERNS.map ErrorPattern.label).Nodup := by decide
  induction msgs with
  | nil => simp [findErrors, countLabel]
  | cons m rest ih =>
      have happ : findErrors (m :: rest) =
          ERROR_PATTERNS.filterMap (errorsOfMessage (extractFullContent m)) ++
            findErrors rest := by
        simp [findErrors]
      rw [happ]
      have hsplit : countLabel p.label
          (ERROR_PATTERNS.filterMap (errorsOfMessage (extractFullContent m)) ++
            findErrors rest) =
          countLabel p.label
            (ERROR_PATTERNS.filterMap (errorsOfMessage (extractFullContent m))) +
          countLabel p.label (findErrors rest) := by
        simp [countLabel, List.filter_append]
      rw [hsplit, countLabel_table ERROR_PATTERNS hN p hp, ih]
      by_cases hs : (p.regex (extractFullContent m).data).isSome
      · simp [List.filter_cons, hs]
        omega
      · simp [List.filter_cons, hs]

/-- Concrete two-message transcript: each message matches the syntax-error
signature (the first one twice inside one message). -/
def syntaxErrorMessages : List TranscriptMessage :=
  [{ role := .assistant,
     content := [.text "SyntaxError: bad token\nSyntaxError: again"] },
   { role := .user,
     content := [.text "retry: SyntaxError: still bad"] }]

/-- C10: for every transcript and every signature of the fixed pattern table,
the recorded repeated-error count for that signature's label equals the number
of distinct trace messages whose full content matches the signature (multiple
occurrences inside one message count once), so a count of N requires at least
N distinct messages. -/
theorem repeated_error_counts_messages (msgs : List TranscriptMessage)
    (p : ErrorPattern) (hp : p ∈ ERROR_PATTERNS)
    (r : RepeatedError) (hr : r ∈ findRepeatedErrors (findErrors msgs))
    (hl : r.pattern = p.label) :
    r.count = (msgs.filter
        (fun m => (p.regex (extractFullContent m).data).isSome)).length ∧
    r.count ≤ msgs.length ∧
    (∀ msg : TranscriptMessage, countLabel p.label (findErrors [msg]) ≤ 1) := by
  have hr' : r ∈ ((tally (findErrors msgs)).filter (fun pc => 2 ≤ pc.2)).map
      (fun pc => RepeatedError.mk pc.1 pc.2) := by
    rw [findRepeatedErrors] at hr
    exact (List.mergeSort_perm _ _).mem_iff.mp hr
  obtain ⟨pc, hpc, hre⟩ := List.mem_map.mp hr'
  have htl : pc ∈ tally (findErrors msgs) := (List.mem_filter.mp hpc).1
  obtain ⟨k, n⟩ := pc
  have hcount : n = countLabel k (findErrors msgs) := tally_count htl
  have hk : k = p.label := by rw [← hl, ← hre]
  have hrc : r.count = n := by rw [← hre]
  subst hk
  rw [hrc, hcount, countLabel_findErrors msgs p hp]
  refine ⟨rfl, List.length_filter_le _ _, ?_⟩
  intro msg
  rw [countLabel_findErrors [msg] p hp]
  exact List.length_filter_le _ _

/-- C10 witness: on the concrete two-message transcript the syntax-error label
is reported with count 2 — one hit per matching message, although the first
message contains the error text twice. -/
theorem repeated_error_counts_messages_witness :
    ErrorPattern.mk (regexOfSubLower "syntaxerror:") "JavaScript syntax error"
        ∈ ERROR_PATTERNS ∧
    RepeatedError.mk "JavaScript syntax error" 2
        ∈ findRepeatedErrors (findErrors syntaxErrorMessages) ∧
    (RepeatedError.mk "JavaScript syntax error" 2).pattern =
        (ErrorPattern.mk (regexOfSubLower "syntaxerror:")
          "JavaScript syntax error").label ∧
    ((2 : Nat) = (syntaxErrorMessages.filter
        (fun m => ((ErrorPattern.mk (regexOfSubLower "syntaxerror:")
          "JavaScript syntax error").regex
            (extractFullContent m).data).isSome)).length ∧
      (2 : Nat) ≤ syntaxErrorMessages.length ∧
      (∀ msg : TranscriptMessage,
        countLabel (ErrorPattern.mk (regexOfSubLower "syntaxerror:")
          "JavaScript syntax error").label (findErrors [msg]) ≤ 1)) :=
  have hp : ErrorPattern.mk (regexOfSubLower "syntaxerror:")
      "JavaScript syntax error" ∈ ERROR_PATTERNS :=
    List.Mem.tail _ (List.Mem.head _)
  have hr : RepeatedError.mk "JavaScript syntax error" 2
      ∈ findRepeatedErrors (findErrors syntaxErrorMessages) := by
    rw [findRepeatedErrors]
    refine (List.mergeSort_perm _ _).mem_iff.mpr ?_
    decide
  ⟨hp, hr, rfl,
   repeated_error_counts_messages syntaxErrorMessages _ hp _ hr rfl⟩

/-! ## Session memory model (types.ts / setup-ralph-loop.sh update-memory) -/

/-- `interface AccomplishedItem`. -/
structure AccomplishedItem where
  iteration : Nat
  description : String
deriving DecidableEq, Repr

/-- `interface FailedAttempt`; `learning` is optional. -/
structure FailedAttempt where
  iteration : Nat
  description : String
  learning : Option String
deriving DecidableEq, Repr

/-- `interface RalphMemory` — the durable per-session record. -/
structure RalphMemory where
  session_id : String
  started_at : String
  last_updated : String
  current_iteration : Nat
  original_objective : String
  current_status : String
  accomplished : List AccomplishedItem
  failed_attempts : List FailedAttempt
  next_actions : List String
  key_learnings : List String
deriving DecidableEq, Repr

/-! ## Context builder (src/scripts/build-context.ts) -/

/-- `interface PastLearning` — one row of the memorai past-session query. -/
structure PastLearning where
  title : String
  summary : String
  category : String
  relevance : Nat
deriving DecidableEq, Repr

/-- `interface ContextInput`. The two memorai reads inside `buildContext` —
the session memory loaded when `memory` is not provided, and the
`queryPastLearnings` response — are external store lookups; their results are
modelled as the `memory` and `pastLearnings` fields (empty when the store is
unavailable). -/
structure ContextInput where
  state : RalphState
  memory : Option RalphMemory
  strategy : StrategyResult
  analysis : Option TranscriptAnalysis
  nudge_content : String
  pastLearnings : List PastLearning
deriving DecidableEq, Repr

/-- `const DIVIDER = "═".repeat(50)`. -/
def DIVIDER : String := String.mk (List.replicate 50 '═')

/-- `const SECTION_DIVIDER = "─".repeat(40)`. -/
def SECTION_DIVIDER : String := String.mk (List.replicate 40 '─')

/-- `memory.key_learnings.slice(-5)` — the most recent `n` entries. -/
def lastN (n : Nat) (l : List α) : List α :=
  l.drop (l.length - n)

/-- `new Map(errors.map(e => [e.pattern, e])).values()`: distinct patterns in
first-occurrence order, each mapped to the last entry with that pattern. -/
def uniqueByPattern (errors : List ErrorEntry) : List ErrorEntry :=
  ((errors.map (fun e => e.pattern)).eraseDups).filterMap
    (fun pat => (errors.filter (fun e => e.pattern = pat)).getLast?)

/-- All lines pushed by `buildContext` before the final original-prompt push. -/
def contextLines (input : ContextInput) : List String :=
  let state := input.state
  let strategy := input.strategy
  -- Header with iteration
  [DIVIDER,
   s!"   RALPH ITERATION {state.iteration}",
   s!"   Strategy: {strategy.strategy.upper}",
   DIVIDER,
   ""]
  -- One-time nudge (if present)
  ++ (if input.nudge_content ≠ "" then
        ["## PRIORITY INSTRUCTION (ONE-TIME)", "", input.nudge_content, "",
         SECTION_DIVIDER, ""]
      else [])
  -- Mission / Original Objective
  ++ ["## YOUR MISSION", "",
      (match input.memory with
       | some mem =>
           if mem.original_objective ≠ "" then mem.original_objective
           else if state.prompt_text ≠ "" then state.prompt_text
           else "_No objective recorded_"
       | none =>
           if state.prompt_text ≠ "" then state.prompt_text
           else "_No objective recorded_"),
      ""]
  -- Current Status
  ++ (match input.memory with
      | some mem =>
          if mem.current_status ≠ "" then
            ["## CURRENT STATUS", "", mem.current_status, ""]
          else []
      | none => [])
  -- Next Actions
  ++ (match input.memory with
      | some mem =>
          if mem.next_actions.length > 0 then
            ["## NEXT ACTIONS", ""]
            ++ (mem.next_actions.take 5).enum.map
                (fun ia => s!"{ia.1 + 1}. {ia.2}")
            ++ [""]
          else []
      | none => [])
  -- Strategy guidance
  ++ ["## STRATEGY GUIDANCE", "",
      s!"_Phase: {strategy.strategy.name} - {strategy.reason}_", ""]
  ++ strategy.guidance.map (fun g => s!"- {g}")
  ++ [""]
  -- Key learnings (to avoid repeating mistakes)
  ++ (match input.memory with
      | some mem =>
          if mem.key_learnings.length > 0 then
            ["## KEY LEARNINGS", ""]
            ++ (lastN 5 mem.key_learnings).map (fun l => s!"- {l}")
            ++ [""]
          else []
      | none => [])
  -- Memorai Integration: Past session learnings
  ++ (if input.pastLearnings.length > 0 then
        ["## FROM PAST SESSIONS", "",
         "_Relevant knowledge from previous Ralph sessions:_", ""]
        ++ input.pastLearnings.flatMap (fun learning =>
            [s!"- **[{learning.category}]** {learning.title}"]
            ++ (if learning.summary ≠ "" && learning.summary ≠ "(no summary)" then
                  [s!"  > {learning.summary}"]
                else []))
        ++ [""]
      else [])
  -- Error context (if recent errors)
  ++ (match input.analysis with
      | some analysis =>
          if analysis.errors.length > 0 then
            ["## RECENT ERRORS (fix these!)", ""]
            ++ ((uniqueByPattern analysis.errors).take 3).map
                (fun e => s!"- {e.pattern}: {e.sample}")
            ++ [""]
          else []
      | none => [])
  -- Completion reminder
  ++ (match state.completion_promise with
      | some cp =>
          if cp ≠ "" then
            [SECTION_DIVIDER, "",
             s!"**COMPLETION:** When done, output: `<promise>{cp}</promise>`",
             "_Only output this when the statement is TRUE!_", ""]
          else []
      | none => [])
  ++ [DIVIDER, ""]

/-- `buildContext(input)`: all section lines followed by the verbatim original
prompt (`state.prompt_text || ""`), joined with newlines. -/
def buildContext (input : ContextInput) : String :=
  joinNL (contextLines input ++
    [if input.state.prompt_text = "" then "" else input.state.prompt_text])

lemma joinNL_append_last (l : List String) (x : String) (h : l ≠ []) :
    joinNL (l ++ [x]) = joinNL l ++ "\n" ++ x := by
  induction l with
  | nil => exact absurd rfl h
  | cons a t ih =>
      cases t with
      | nil => simp [joinNL]
      | cons b t' =>
          have hih := ih (List.cons_ne_nil _ _)
          calc joinNL ((a :: b :: t') ++ [x])
              = a ++ "\n" ++ joinNL ((b :: t') ++ [x]) := rfl
            _ = a ++ "\n" ++ (joinNL (b :: t') ++ "\n" ++ x) := by rw [hih]
            _ = joinNL (a :: b :: t') ++ "\n" ++ x := by
                rw [← String.append_assoc, ← String.append_assoc]
                rfl

lemma contextLines_ne_nil (input : ContextInput) : contextLines input ≠ [] := by
  unfold contextLines
  simp only [List.cons_append]
  exact List.cons_ne_nil _ _

/-- C4: for every combination of present or absent optional sections, the
assembled directive ends with `LoopState.prompt_text`, byte for byte. -/
theorem directive_tail_is_prompt (input : ContextInput) :
    ∃ pre, buildContext input = pre ++ input.state.prompt_text := by
  by_cases hp : input.state.prompt_text = ""
  · refine ⟨buildContext input, ?_⟩
    rw [hp, String.append_empty]
  · refine ⟨joinNL (contextLines input) ++ "\n", ?_⟩
    rw [buildContext, if_neg hp,
      joinNL_append_last _ _ (contextLines_ne_nil input), String.append_assoc]

/-! ## Memory update (setup-ralph-loop.sh, embedded update-memory script)

The memorai client calls (`storeSessionObjective`, `storeSessionState`,
`storeAccomplishment`, `storeFailure`, `storeLearning`) are external writes;
the embedding models the in-memory `RalphMemory` record they accompany. The
timestamp and the freshly generated session id are inputs. -/

/-- `interface MemoryInput`. -/
structure MemoryInput where
  state : RalphState
  analysis : TranscriptAnalysis
  iteration_summary : Option String
  next_actions : Option (List String)
  learnings : Option (List String)
deriving DecidableEq, Repr

/-- `Array.prototype.join(sep)`. -/
def joinSep (sep : String) : List String → String
  | [] => ""
  | [a] => a
  | a :: b :: rest => a ++ sep ++ joinSep sep (b :: rest)

/-- `summarizeProgress(input)`. -/
def summarizeProgress (input : MemoryInput) : String :=
  let parts : List String :=
    (if input.analysis.files_modified.length > 0 then
       [s!"Modified {input.analysis.files_modified.length} file(s)"]
     else [])
    ++ (if input.analysis.tests_run then
          [if input.analysis.tests_passed then "tests passing"
           else if input.analysis.tests_failed then "tests failing"
           else "tests run"]
        else [])
    ++ (if input.analysis.phase_completions.length > 0 then
          let joined := joinSep ", " input.analysis.phase_completions
          [s!"completed: {joined}"]
        else [])
  if parts.length > 0 then joinSep "; " parts else "Made progress"

/-- `const MAX_ITEMS = 20`. -/
def MAX_ITEMS : Nat := 20

/-- The 'Keep lists manageable' step:
`if (list.length > MAX_ITEMS) list = list.slice(-MAX_ITEMS)`. -/
def capList (l : List α) : List α :=
  if MAX_ITEMS < l.length then lastN MAX_ITEMS l else l

/-- `updateMemory(client, existing, input)` before the final capping step:
initialization for a new session, the per-turn field updates, and the
appends to the accomplished / failed / learnings lists. -/
def updateMemoryUncapped (existing : Option RalphMemory) (input : MemoryInput)
    (now generatedSessionId : String) : RalphMemory :=
  let iteration := input.state.iteration
  -- Initialize new memory structure (`existing ||` the fresh record)
  let memory : RalphMemory :=
    match existing with
    | some m => m
    | none =>
        { session_id := generatedSessionId
          started_at :=
            if input.state.started_at ≠ "" then input.state.started_at else now
          last_updated := now
          current_iteration := iteration
          original_objective := input.state.prompt_text
          current_status :=
            match input.iteration_summary with
            | some s => if s ≠ "" then s else "Session started"
            | none => "Session started"
          accomplished := []
          failed_attempts := []
          next_actions := input.next_actions.getD []
          key_learnings := [] }
  -- Update fields
  let memory := { memory with last_updated := now, current_iteration := iteration }
  let memory :=
    match input.iteration_summary with
    | some s => if s ≠ "" then { memory with current_status := s } else memory
    | none => memory
  let memory :=
    match input.next_actions with
    | some na =>
        if na.length > 0 then { memory with next_actions := na } else memory
    | none => memory
  -- Store accomplishment if meaningful changes
  let memory :=
    if input.analysis.meaningful_changes then
      { memory with accomplished := memory.accomplished ++
          [{ iteration := iteration, description := summarizeProgress input }] }
    else memory
  -- Store failure if errors without progress
  let memory :=
    if input.analysis.errors.length > 0 && !input.analysis.meaningful_changes then
      { memory with failed_attempts := memory.failed_attempts ++
          [{ iteration := iteration,
             description := s!"Encountered {input.analysis.errors.length} error(s)",
             learning := input.analysis.errors.head?.map (fun e => e.pattern) }] }
    else memory
  -- Store new learnings (skipping ones already present)
  let memory :=
    match input.learnings with
    | some ls =>
        ls.foldl (fun mem learning =>
          if learning ∈ mem.key_learnings then mem
          else { mem with key_learnings := mem.key_learnings ++ [learning] }) memory
    | none => memory
  memory

/-- `updateMemory`: the updates above followed by the MAX_ITEMS cap on the
three lists. -/
def updateMemory (existing : Option RalphMemory) (input : MemoryInput)
    (now generatedSessionId : String) : RalphMemory :=
  let memory := updateMemoryUncapped existing input now generatedSessionId
  { memory with
    accomplished := capList memory.accomplished
    failed_attempts := capList memory.failed_attempts
    key_learnings := capList memory.key_learnings }

lemma capList_length_le (l : List α) : (capList l).length ≤ MAX_ITEMS := by
  rw [capList]
  split
  · rename_i h
    rw [lastN, List.length_drop]
    omega
  · omega

lemma capList_suffix (l : List α) : (capList l).IsSuffix l := by
  rw [capList]
  split
  · exact List.drop_suffix _ _
  · exact List.suffix_refl l

/-- C9: every memory-update call returns a record whose accomplished, failed
and learnings lists have at most 20 entries, each a final segment (the most
recent entries, oldest dropped) of the fully-appended list. -/
theorem memory_lists_capped (existing : Option RalphMemory) (input : MemoryInput)
    (now generatedSessionId : String) :
    ((updateMemory existing input now generatedSessionId).accomplished.length ≤ 20 ∧
      (updateMemory existing input now generatedSessionId).accomplished.IsSuffix
        (updateMemoryUncapped existing input now generatedSessionId).accomplished) ∧
    ((updateMemory existing input now generatedSessionId).failed_attempts.length ≤ 20 ∧
      (updateMemory existing input now generatedSessionId).failed_attempts.IsSuffix
        (updateMemoryUncapped existing input now generatedSessionId).failed_attempts) ∧
    ((updateMemory existing input now generatedSessionId).key_learnings.length ≤ 20 ∧
      (updateMemory existing input now generatedSessionId).key_learnings.IsSuffix
        (updateMemoryUncapped existing input now generatedSessionId).key_learnings) :=
  ⟨⟨capList_length_le _, capList_suffix _⟩,
   ⟨capList_length_le _, capList_suffix _⟩,
   ⟨capList_length_le _, capList_suffix _⟩⟩

/-! ## Stop hook orchestrator (the per-turn shell hook)

One invocation of the stop hook. File-system facts (state marker present,
transcript contents, nudge mailbox, checkpoint marker) are inputs; file writes
and removals are recorded as flags on the result. The analyze-transcript
subprocess output is the `analysis` input; the strategy subprocess is the
embedded `determineStrategy`; the directive is the embedded `buildContext`. -/

/-- The bash numeric validation `[[ "$X" =~ ^[0-9]+$ ]]` together with the
value the digit string denotes: `some n` for a nonempty all-digit string,
`none` otherwise. -/
def parseNatField (s : String) : Option Nat :=
  if s.data ≠ [] && s.data.all Char.isDigit then
    some (s.data.foldl (fun n c => n * 10 + (c.toNat - '0'.toNat)) 0)
  else none

/-- The maximal whitespace-separated words of a character list (`acc` holds
the reversed characters of the word being read). -/
def wordsAux : List Char → List Char → List String
  | [], acc => if acc = [] then [] else [String.mk acc.reverse]
  | c :: rest, acc =>
      if isWsChar c then
        if acc = [] then wordsAux rest []
        else String.mk acc.reverse :: wordsAux rest []
      else wordsAux rest (c :: acc)

/-- The perl whitespace normalization `s/^\s+|\s+$//g; s/\s+/ /g`: collapse
runs of whitespace and trim the ends — i.e. the whitespace-separated words
rejoined with single spaces. -/
def normalizeWs (s : String) : String :=
  joinSep " " (wordsAux s.data [])

/-- Split `l` around the first occurrence of `pat`, returning the part before
and the part after. -/
def breakOnSub (pat : List Char) : List Char → Option (List Char × List Char)
  | [] => if pat.isPrefixOf ([] : List Char) then some ([], []) else none
  | c :: rest =>
      if pat.isPrefixOf (c :: rest) then some ([], (c :: rest).drop pat.length)
      else (breakOnSub pat rest).map (fun pr => (c :: pr.1, pr.2))

/-- The capture of `s/.*?<promise>(.*?)<\/promise>.*/$1/s`: the inner text of
the first delimited promise tag pair, if one exists. -/
def extractPromiseInner (s : String) : Option String :=
  match breakOnSub "<promise>".data s.data with
  | none => none
  | some pr =>
      match breakOnSub "</promise>".data pr.2 with
      | none => none
      | some inner => some (String.mk inner.1)

/-- `PROMISE_TEXT`: when the tag substitution fires, the normalized inner text;
when no delimited tag pair is present the perl substitution does not match and
the whole message, normalized, passes through. -/
def promiseText (output : String) : String :=
  match extractPromiseInner output with
  | some inner => normalizeWs inner
  | none => normalizeWs output

/-- `grep -q '"role":"assistant"'` over the transcript. -/
def hasAssistantMessage (msgs : List TranscriptMessage) : Bool :=
  msgs.any (fun m => m.role = Role.assistant)

/-- `LAST_OUTPUT`: the text blocks of the last assistant message joined with
newlines (the jq program keeps every text block, empty or not). -/
def lastAssistantOutput (msgs : List TranscriptMessage) : String :=
  match (msgs.filter (fun m => m.role = Role.assistant)).getLast? with
  | some m =>
      joinNL (m.content.filterMap (fun b =>
        match b with
        | .text t => some t
        | .tool_use _ => none))
  | none => ""

/-- The hook's decision: allow the stop (terminal) or block it. -/
inductive Decision
  | allow
  | block
deriving DecidableEq, Repr

/-- Which exit point of the stop hook script produced the result. -/
inductive ExitPath
  | noMarker
  | corruptIteration
  | corruptMaxIterations
  | maxIterationsReached
  | transcriptMissing
  | noAssistantMessage
  | emptyLastMessage
  | promiseMatch
  | checkpointPause
  | normalBlock
deriving DecidableEq, Repr

/-- One invocation's inputs: the parsed state-file fields (numeric fields kept
raw, as the script validates them), the transcript (`none` = file missing),
the analyzer subprocess output, the nudge mailbox, the checkpoint marker, and
the memorai past-learnings query result. -/
structure HookInput where
  statePresent : Bool
  iterationField : String
  maxIterationsField : String
  completionPromise : String
  startedAt : String
  checkpointInterval : Nat
  checkpointMode : String
  currentStrategy : Strategy
  stuckCount : Nat
  promptText : String
  transcript : Option (List TranscriptMessage)
  analysis : TranscriptAnalysis
  nudge : Option String
  checkpointMarkerPresent : Bool
  pastLearnings : List PastLearning
deriving Repr

/-- One invocation's outcome: the decision, which script exit produced it, and
the file-system effects performed on the way (state marker removal, summary
generation, state-file rewrite, checkpoint marker creation, nudge removal). -/
structure HookResult where
  decision : Decision
  exitPath : ExitPath
  stateFileRemoved : Bool
  summaryReason : Option String
  newIteration : Option Nat
  newStrategy : Option Strategy
  checkpointFileWritten : Bool
  nudgeFileRemoved : Bool
  reason : Option String
  systemMessage : Option String
deriving DecidableEq, Repr

/-- The stop hook, end to end, in script order: no marker → numeric
validation → max-iterations check → transcript checks → completion promise →
enhanced processing (analysis, strategy, nudge, checkpoint computation,
context build, state-file rewrite) → checkpoint pause or normal block. -/
def hookStep (inp : HookInput) : HookResult :=
  if inp.statePresent = false then
    { decision := .allow, exitPath := .noMarker, stateFileRemoved := false,
      summaryReason := none, newIteration := none, newStrategy := none,
      checkpointFileWritten := false, nudgeFileRemoved := false,
      reason := none, systemMessage := none }
  else
    match parseNatField inp.iterationField with
    | none =>
        { decision := .allow, exitPath := .corruptIteration,
          stateFileRemoved := true, summaryReason := none, newIteration := none,
          newStrategy := none, checkpointFileWritten := false,
          nudgeFileRemoved := false, reason := none, systemMessage := none }
    | some iteration =>
        match parseNatField inp.maxIterationsField with
        | none =>
            { decision := .allow, exitPath := .corruptMaxIterations,
              stateFileRemoved := true, summaryReason := none,
              newIteration := none, newStrategy := none,
              checkpointFileWritten := false, nudgeFileRemoved := false,
              reason := none, systemMessage := none }
        | some maxIterations =>
            if 0 < maxIterations ∧ maxIterations ≤ iteration then
              { decision := .allow, exitPath := .maxIterationsReached,
                stateFileRemoved := true, summaryReason := some "max_iterations",
                newIteration := none, newStrategy := none,
                checkpointFileWritten := false, nudgeFileRemoved := false,
                reason := none, systemMessage := none }
            else
              match inp.transcript with
              | none =>
                  { decision := .allow, exitPath := .transcriptMissing,
                    stateFileRemoved := true, summaryReason := none,
                    newIteration := none, newStrategy := none,
                    checkpointFileWritten := false, nudgeFileRemoved := false,
                    reason := none, systemMessage := none }
              | some msgs =>
                  if hasAssistantMessage msgs = false then
                    { decision := .allow, exitPath := .noAssistantMessage,
                      stateFileRemoved := true, summaryReason := none,
                      newIteration := none, newStrategy := none,
                      checkpointFileWritten := false, nudgeFileRemoved := false,
                      reason := none, systemMessage := none }
                  else if lastAssistantOutput msgs = "" then
                    { decision := .allow, exitPath := .emptyLastMessage,
                      stateFileRemoved := true, summaryReason := none,
                      newIteration := none, newStrategy := none,
                      checkpointFileWritten := false, nudgeFileRemoved := false,
                      reason := none, systemMessage := none }
                  else if inp.completionPromise ≠ "null" ∧ inp.completionPromise ≠ "" ∧
                      promiseText (lastAssistantOutput msgs) ≠ "" ∧
                      promiseText (lastAssistantOutput msgs) = inp.completionPromise then
                    { decision := .allow, exitPath := .promiseMatch,
                      stateFileRemoved := true, summaryReason := some "promise",
                      newIteration := none, newStrategy := none,
                      checkpointFileWritten := false, nudgeFileRemoved := false,
                      reason := none, systemMessage := none }
                  else
                    -- === ENHANCED PROCESSING ===
                    let checkpointMode :=
                      if inp.checkpointMode = "" then "notify" else inp.checkpointMode
                    let state : RalphState :=
                      { active := true, iteration := iteration,
                        max_iterations := maxIterations,
                        completion_promise := some inp.completionPromise,
                        started_at := inp.startedAt,
                        checkpoint_interval := inp.checkpointInterval,
                        checkpoint_mode := checkpointMode,
                        strategy := { current := inp.currentStrategy, changed_at := 0 },
                        progress := { stuck_count := inp.stuckCount,
                                      velocity := "normal",
                                      last_meaningful_change := 0 },
                        phases := [], prompt_text := inp.promptText }
                    let strategyRes :=
                      determineStrategy { state := state, analysis := inp.analysis }
                    let nudgeContent := inp.nudge.getD ""
                    let nextIteration := iteration + 1
                    let isCheckpoint : Bool :=
                      decide (0 < inp.checkpointInterval) &&
                        decide (nextIteration % inp.checkpointInterval = 0)
                    let enhancedPrompt := buildContext
                      { state := state, memory := none, strategy := strategyRes,
                        analysis := some inp.analysis,
                        nudge_content := nudgeContent,
                        pastLearnings := inp.pastLearnings }
                    if isCheckpoint && decide (checkpointMode = "pause") then
                      { decision := .block, exitPath := .checkpointPause,
                        stateFileRemoved := false, summaryReason := none,
                        newIteration := some nextIteration,
                        newStrategy := some strategyRes.strategy,
                        checkpointFileWritten := true,
                        nudgeFileRemoved := inp.nudge.isSome,
                        reason := some "Checkpoint reached. Review .claude/RALPH_CHECKPOINT.md and run /ralph-checkpoint continue when ready.",
                        systemMessage := some s!"⏸️ Checkpoint at iteration {nextIteration}. Run /ralph-checkpoint continue to resume." }
                    else
                      let errorsCount := inp.analysis.errors.length
                      let errorInfo :=
                        if 0 < errorsCount then s!" | ⚠️ {errorsCount} error(s)" else ""
                      let sysMsg :=
                        if inp.completionPromise ≠ "null" ∧ inp.completionPromise ≠ "" then
                          s!"🔄 Ralph #{nextIteration} [{strategyRes.strategy.name}]{errorInfo} | Done? <promise>{inp.completionPromise}</promise>"
                        else
                          s!"🔄 Ralph #{nextIteration} [{strategyRes.strategy.name}]{errorInfo}"
                      let sysMsg :=
                        if nudgeContent ≠ "" then sysMsg ++ " | 📬 Nudge received" else sysMsg
                      let sysMsg :=
                        if isCheckpoint && decide (checkpointMode = "notify") then
                          sysMsg ++ " | 📍 Checkpoint"
                        else sysMsg
                      { decision := .block, exitPath := .normalBlock,
                        stateFileRemoved := false, summaryReason := none,
                        newIteration := some nextIteration,
                        newStrategy := some strategyRes.strategy,
                        checkpointFileWritten := false,
                        nudgeFileRemoved := inp.nudge.isSome,
                        reason := some enhancedPrompt,
                        systemMessage := some sysMsg }

/-- The analyzer-subprocess fallback value (the `|| echo '{...}'` literal in
the stop hook). -/
def defaultAnalysis : TranscriptAnalysis :=
  { errors := [], repeated_errors := [], files_modified := [], tests_run := false,
    tests_passed := false, tests_failed := false, phase_completions := [],
    meaningful_changes := false }

/-! ## Stop hook theorems -/

/-- C1 (bug exhibit): with `completion_promise = "DONE"`, a last agent message
whose whole text is `DONE` and which contains no `<promise>` tag still
terminates the session with terminal reason `promise`: the perl substitution
does not fire without a tag pair, so the whitespace-normalized whole message
is compared against the promise. -/
theorem promise_without_tag_terminates :
    extractPromiseInner "DONE" = none ∧
    (hookStep
      { statePresent := true, iterationField := "3", maxIterationsField := "0",
        completionPromise := "DONE", startedAt := "", checkpointInterval := 0,
        checkpointMode := "notify", currentStrategy := .explore, stuckCount := 0,
        promptText := "task",
        transcript := some [{ role := .assistant, content := [.text "DONE"] }],
        analysis := defaultAnalysis, nudge := none,
        checkpointMarkerPresent := false, pastLearnings := [] }).decision =
      Decision.allow ∧
    (hookStep
      { statePresent := true, iterationField := "3", maxIterationsField := "0",
        completionPromise := "DONE", startedAt := "", checkpointInterval := 0,
        checkpointMode := "notify", currentStrategy := .explore, stuckCount := 0,
        promptText := "task",
        transcript := some [{ role := .assistant, content := [.text "DONE"] }],
        analysis := defaultAnalysis, nudge := none,
        checkpointMarkerPresent := false, pastLearnings := [] }).exitPath =
      ExitPath.promiseMatch ∧
    (hookStep
      { statePresent := true, iterationField := "3", maxIterationsField := "0",
        completionPromise := "DONE", startedAt := "", checkpointInterval := 0,
        checkpointMode := "notify", currentStrategy := .explore, stuckCount := 0,
        promptText := "task",
        transcript := some [{ role := .assistant, content := [.text "DONE"] }],
        analysis := defaultAnalysis, nudge := none,
        checkpointMarkerPresent := false, pastLearnings := [] }).summaryReason =
      some "promise" :=
  ⟨by decide, by decide, by decide, by decide⟩

/-- C5: with well-formed numeric fields, `max_iterations > 0` and
`iteration ≥ max_iterations` yield ALLOW with terminal reason
`max_iterations`, a generated summary and a cleared marker; with
`max_iterations = 0` this terminal reason can never be produced. -/
theorem max_iterations_termination (inp : HookInput) (iteration maxIterations : Nat)
    (hs : inp.statePresent = true)
    (hi : parseNatField inp.iterationField = some iteration)
    (hm : parseNatField inp.maxIterationsField = some maxIterations) :
    (0 < maxIterations → maxIterations ≤ iteration →
      (hookStep inp).decision = Decision.allow ∧
      (hookStep inp).exitPath = ExitPath.maxIterationsReached ∧
      (hookStep inp).stateFileRemoved = true ∧
      (hookStep inp).summaryReason = some "max_iterations") ∧
    (maxIterations = 0 →
      (hookStep inp).exitPath ≠ ExitPath.maxIterationsReached ∧
      (hookStep inp).summaryReason ≠ some "max_iterations") := by
  constructor
  · intro h0 hge
    unfold hookStep
    rw [hs, hi, hm]
    simp only [Bool.true_eq_false, if_false]
    rw [if_pos ⟨h0, hge⟩]
    exact ⟨rfl, rfl, rfl, rfl⟩
  · intro h0
    subst h0
    unfold hookStep
    rw [hs, hi, hm]
    simp only [Bool.true_eq_false, if_false]
    rw [if_neg (by omega)]
    cases inp.transcript with
    | none => simp
    | some msgs =>
        by_cases hA : hasAssistantMessage msgs = false
        · simp [hA]
        · by_cases hE : lastAssistantOutput msgs = ""
          · simp [hA, hE]
          · by_cases hP : inp.completionPromise ≠ "null" ∧ inp.completionPromise ≠ "" ∧
                promiseText (lastAssistantOutput msgs) ≠ "" ∧
                promiseText (lastAssistantOutput msgs) = inp.completionPromise
            · simp [hA, hE, hP]
            · simp only [hA, hE, hP]
              constructor
              · simp only [apply_ite HookResult.exitPath]
                simp [ite_eq_iff]
              · simp only [apply_ite HookResult.summaryReason]
                simp [ite_eq_iff]

/-- C5 witness: `max_iterations = 5` and a turn processed at iteration 5 is
terminated with reason `max_iterations`. -/
theorem max_iterations_termination_witness :
    ({ statePresent := true, iterationField := "5", maxIterationsField := "5",
       completionPromise := "null", startedAt := "", checkpointInterval := 0,
       checkpointMode := "notify", currentStrategy := .explore, stuckCount := 0,
       promptText := "task",
       transcript := some [{ role := .assistant, content := [.text "working"] }],
       analysis := defaultAnalysis, nudge := none,
       checkpointMarkerPresent := false, pastLearnings := [] } : HookInput).statePresent = true ∧
    parseNatField "5" = some 5 ∧ 0 < 5 ∧ 5 ≤ 5 ∧
    (hookStep
      { statePresent := true, iterationField := "5", maxIterationsField := "5",
        completionPromise := "null", startedAt := "", checkpointInterval := 0,
        checkpointMode := "notify", currentStrategy := .explore, stuckCount := 0,
        promptText := "task",
        transcript := some [{ role := .assistant, content := [.text "working"] }],
        analysis := defaultAnalysis, nudge := none,
        checkpointMarkerPresent := false, pastLearnings := [] }).decision = Decision.allow ∧
    (hookStep
      { statePresent := true, iterationField := "5", maxIterationsField := "5",
        completionPromise := "null", startedAt := "", checkpointInterval := 0,
        checkpointMode := "notify", currentStrategy := .explore, stuckCount := 0,
        promptText := "task",
        transcript := some [{ role := .assistant, content := [.text "working"] }],
        analysis := defaultAnalysis, nudge := none,
        checkpointMarkerPresent := false, pastLearnings := [] }).summaryReason =
      some "max_iterations" :=
  ⟨rfl, by decide, by decide, by decide,
   ((max_iterations_termination _ 5 5 rfl (by decide) (by decide)).1
      (by decide) (by decide)).1,
   ((max_iterations_termination _ 5 5 rfl (by decide) (by decide)).1
      (by decide) (by decide)).2.2.2⟩

/-- C6 (bug exhibit): the pause-mode checkpoint turn writes the checkpoint
marker, advances the iteration in the state file and returns BLOCK with the
operator message; but on the following invocation, with the marker still
present, the hook advances the iteration again and returns the normal
strategy directive — no code path reads the checkpoint marker, so nothing
withholds iteration advancement until an external actor clears it. -/
theorem checkpoint_pause_does_not_gate :
    (hookStep
      { statePresent := true, iterationField := "1", maxIterationsField := "0",
        completionPromise := "null", startedAt := "", checkpointInterval := 2,
        checkpointMode := "pause", currentStrategy := .explore, stuckCount := 0,
        promptText := "task",
        transcript := some [{ role := .assistant, content := [.text "working"] }],
        analysis := defaultAnalysis, nudge := none,
        checkpointMarkerPresent := false, pastLearnings := [] }).exitPath =
      ExitPath.checkpointPause ∧
    (hookStep
      { statePresent := true, iterationField := "1", maxIterationsField := "0",
        completionPromise := "null", startedAt := "", checkpointInterval := 2,
        checkpointMode := "pause", currentStrategy := .explore, stuckCount := 0,
        promptText := "task",
        transcript := some [{ role := .assistant, content := [.text "working"] }],
        analysis := defaultAnalysis, nudge := none,
        checkpointMarkerPresent := false, pastLearnings := [] }).checkpointFileWritten =
      true ∧
    (hookStep
      { statePresent := true, iterationField := "2", maxIterationsField := "0",
        completionPromise := "null", startedAt := "", checkpointInterval := 2,
        checkpointMode := "pause", currentStrategy := .explore, stuckCount := 0,
        promptText := "task",
        transcript := some [{ role := .assistant, content := [.text "working"] }],
        analysis := defaultAnalysis, nudge := none,
        checkpointMarkerPresent := true, pastLearnings := [] }).exitPath =
      ExitPath.normalBlock ∧
    (hookStep
      { statePresent := true, iterationField := "2", maxIterationsField := "0",
        completionPromise := "null", startedAt := "", checkpointInterval := 2,
        checkpointMode := "pause", currentStrategy := .explore, stuckCount := 0,
        promptText := "task",
        transcript := some [{ role := .assistant, content := [.text "working"] }],
        analysis := defaultAnalysis, nudge := none,
        checkpointMarkerPresent := true, pastLearnings := [] }).newIteration =
      some 3 ∧
    ∀ (inp : HookInput) (b : Bool),
      hookStep { inp with checkpointMarkerPresent := b } = hookStep inp :=
  ⟨by decide, by decide, by decide, by decide, fun inp b => rfl⟩

/-- C7: whenever the state marker is present but a numeric field fails the
digit validation, or the transcript is missing, or it has no
assistant-authored message, or the last assistant message is empty, the hook
clears the marker and allows the stop — the fail-open paths. -/
theorem fail_open_abandon (inp : HookInput) (hs : inp.statePresent = true)
    (h : parseNatField inp.iterationField = none ∨
         parseNatField inp.maxIterationsField = none ∨
         inp.transcript = none ∨
         (∃ msgs, inp.transcript = some msgs ∧ hasAssistantMessage msgs = false) ∨
         (∃ msgs, inp.transcript = some msgs ∧ lastAssistantOutput msgs = "")) :
    (hookStep inp).decision = Decision.allow ∧
    (hookStep inp).stateFileRemoved = true := by
  unfold hookStep
  rw [hs]
  simp only [Bool.true_eq_false, if_false]
  cases hi : parseNatField inp.iterationField with
  | none => exact ⟨rfl, rfl⟩
  | some iteration =>
      cases hm : parseNatField inp.maxIterationsField with
      | none => exact ⟨rfl, rfl⟩
      | some maxIterations =>
          dsimp only
          by_cases hmax : 0 < maxIterations ∧ maxIterations ≤ iteration
          · rw [if_pos hmax]
            exact ⟨rfl, rfl⟩
          · rw [if_neg hmax]
            rcases h with h | h | h | ⟨msgs, hms, hA⟩ | ⟨msgs, hms, hE⟩
            · rw [hi] at h; cases h
            · rw [hm] at h; cases h
            · rw [h]
              exact ⟨rfl, rfl⟩
            · rw [hms]
              simp [hA]
            · rw [hms]
              by_cases hA : hasAssistantMessage msgs = false
              · simp [hA]
              · simp [hA, hE]

/-- C7 witness: a corrupted iteration field (`"abc"`) yields ALLOW with the
marker cleared. -/
theorem fail_open_abandon_witness :
    ({ statePresent := true, iterationField := "abc", maxIterationsField := "0",
       completionPromise := "null", startedAt := "", checkpointInterval := 0,
       checkpointMode := "notify", currentStrategy := .explore, stuckCount := 0,
       promptText := "task", transcript := none,
       analysis := defaultAnalysis, nudge := none,
       checkpointMarkerPresent := false, pastLearnings := [] } : HookInput).statePresent = true ∧
    parseNatField "abc" = none ∧
    (hookStep
      { statePresent := true, iterationField := "abc", maxIterationsField := "0",
        completionPromise := "null", startedAt := "", checkpointInterval := 0,
        checkpointMode := "notify", currentStrategy := .explore, stuckCount := 0,
        promptText := "task", transcript := none,
        analysis := defaultAnalysis, nudge := none,
        checkpointMarkerPresent := false, pastLearnings := [] }).decision = Decision.allow ∧
    (hookStep
      { statePresent := true, iterationField := "abc", maxIterationsField := "0",
        completionPromise := "null", startedAt := "", checkpointInterval := 0,
        checkpointMode := "notify", currentStrategy := .explore, stuckCount := 0,
        promptText := "task", transcript := none,
        analysis := defaultAnalysis, nudge := none,
        checkpointMarkerPresent := false, pastLearnings := [] }).stateFileRemoved = true :=
  ⟨rfl, by decide,
   (fail_open_abandon _ rfl (Or.inl (by decide))).1,
   (fail_open_abandon _ rfl (Or.inl (by decide))).2⟩

/-! ## Strategy engine theorems -/

/-- C2: for every `(LoopState, ExecutionSignals)` input, if any repeated-error
entry has count ≥ 3 or `progress.stuck_count ≥ 5`, the strategy engine decides
RECOVERY, regardless of the iteration number and the phase-based strategy. -/
theorem recovery_override (s : RalphState) (a : TranscriptAnalysis)
    (h : (∃ e ∈ a.repeated_errors, REPEATED_ERROR_THRESHOLD ≤ e.count) ∨
         STUCK_THRESHOLD ≤ s.progress.stuck_count) :
    (determineStrategy ⟨s, a⟩).strategy = Strategy.recovery := by
  have hcond : (a.repeated_errors.any (fun e => decide (REPEATED_ERROR_THRESHOLD ≤ e.count))
      || decide (STUCK_THRESHOLD ≤ s.progress.stuck_count)) = true := by
    rcases h with ⟨e, he, hc⟩ | hs
    · simp only [Bool.or_eq_true, List.any_eq_true, decide_eq_true_eq]
      exact Or.inl ⟨e, he, hc⟩
    · simp [hs]
  simp [determineStrategy, hcond]

/-- C2 witness: a concrete turn with a repeated-error count of 3 at iteration 20
is decided RECOVERY. -/
theorem recovery_override_witness :
    ((∃ e ∈ [RepeatedError.mk "Test failure" 3], REPEATED_ERROR_THRESHOLD ≤ e.count) ∨
      STUCK_THRESHOLD ≤ (0 : Nat)) ∧
    (determineStrategy
      ⟨{ active := true, iteration := 20, max_iterations := 0, completion_promise := none,
         started_at := "", checkpoint_interval := 0, checkpoint_mode := "notify",
         strategy := ⟨.focused, 0⟩, progress := ⟨0, "normal", 0⟩, phases := [],
         prompt_text := "task" },
       { errors := [], repeated_errors := [RepeatedError.mk "Test failure" 3],
         files_modified := [], tests_run := false, tests_passed := false,
         tests_failed := false, phase_completions := [],
         meaningful_changes := false }⟩).strategy = Strategy.recovery :=
  ⟨by decide,
   recovery_override _ _ (by decide)⟩

/-- C3: with no recovery trigger (all repeated-error counts < 3, stuck count < 5),
the chosen strategy is a pure function of the iteration: EXPLORE for
iteration ≤ 10, FOCUSED for 10 < iteration ≤ 35, CLEANUP for iteration > 35. -/
theorem phase_based_strategy (s : RalphState) (a : TranscriptAnalysis)
    (hre : ∀ e ∈ a.repeated_errors, e.count < REPEATED_ERROR_THRESHOLD)
    (hst : s.progress.stuck_count < STUCK_THRESHOLD) :
    (determineStrategy ⟨s, a⟩).strategy = determineBaseStrategy s.iteration ∧
    (s.iteration ≤ 10 → (determineStrategy ⟨s, a⟩).strategy = Strategy.explore) ∧
    (10 < s.iteration → s.iteration ≤ 35 →
      (determineStrategy ⟨s, a⟩).strategy = Strategy.focused) ∧
    (35 < s.iteration → (determineStrategy ⟨s, a⟩).strategy = Strategy.cleanup) := by
  have hcond : (a.repeated_errors.any (fun e => decide (REPEATED_ERROR_THRESHOLD ≤ e.count))
      || decide (STUCK_THRESHOLD ≤ s.progress.stuck_count)) = false := by
    simp only [Bool.or_eq_false_iff, List.any_eq_false, decide_eq_true_eq,
      decide_eq_false_iff_not, Nat.not_le]
    exact ⟨fun e he => hre e he, hst⟩
  have hbase : (determineStrategy ⟨s, a⟩).strategy = determineBaseStrategy s.iteration := by
    simp [determineStrategy, hcond]
  refine ⟨hbase, ?_, ?_, ?_⟩
  · intro h10
    rw [hbase]
    simp [determineBaseStrategy, EXPLORE_END, h10]
  · intro h10 h35
    rw [hbase]
    simp [determineBaseStrategy, EXPLORE_END, FOCUSED_END, Nat.not_le.mpr h10, h35]
  · intro h35
    rw [hbase]
    have h10 : ¬ s.iteration ≤ 10 := by omega
    have h35' : ¬ s.iteration ≤ 35 := by omega
    simp [determineBaseStrategy, EXPLORE_END, FOCUSED_END, h10, h35']

/-- C3 witness: iteration 7 with no signals is EXPLORE; the hypotheses hold for
an empty repeated-error list and stuck count 0. -/
theorem phase_based_strategy_witness :
    (∀ e ∈ ([] : List RepeatedError), e.count < REPEATED_ERROR_THRESHOLD) ∧
    (0 : Nat) < STUCK_THRESHOLD ∧
    (determineStrategy
      ⟨{ active := true, iteration := 7, max_iterations := 0, completion_promise := none,
         started_at := "", checkpoint_interval := 0, checkpoint_mode := "notify",
         strategy := ⟨.explore, 0⟩, progress := ⟨0, "normal", 0⟩, phases := [],
         prompt_text := "task" },
       { errors := [], repeated_errors := [], files_modified := [], tests_run := false,
         tests_passed := false, tests_failed := false, phase_completions := [],
         meaningful_changes := false }⟩).strategy = Strategy.explore :=
  ⟨by decide, by decide,
   ((phase_based_strategy _ _ (by decide) (by decide)).2.1 (by decide))⟩

/-- C8 counterexample: with the prior strategy RECOVERY and no recovery trigger
(iteration 5), the computed strategy is EXPLORE — different from the current
strategy — yet the action is "continue", not "switch". -/
theorem action_switch_counterexample :
    (determineStrategy
      ⟨{ active := true, iteration := 5, max_iterations := 0, completion_promise := none,
         started_at := "", checkpoint_interval := 0, checkpoint_mode := "notify",
         strategy := ⟨.recovery, 0⟩, progress := ⟨0, "normal", 0⟩, phases := [],
         prompt_text := "task" },
       { errors := [], repeated_errors := [], files_modified := [], tests_run := false,
         tests_passed := false, tests_failed := false, phase_completions := [],
         meaningful_changes := true }⟩).strategy = Strategy.explore ∧
    Strategy.explore ≠ Strategy.recovery ∧
    (determineStrategy
      ⟨{ active := true, iteration := 5, max_iterations := 0, completion_promise := none,
         started_at := "", checkpoint_interval := 0, checkpoint_mode := "notify",
         strategy := ⟨.recovery, 0⟩, progress := ⟨0, "normal", 0⟩, phases := [],
         prompt_text := "task" },
       { errors := [], repeated_errors := [], files_modified := [], tests_run := false,
         tests_passed := false, tests_failed := false, phase_completions := [],
         meaningful_changes := true }⟩).action = "continue" := by
  refine ⟨by decide, by decide, by decide⟩

/-- C8 amended: the action is "switch" exactly when the computed strategy differs
from `strategy.current` AND the current strategy is not RECOVERY; when the
current strategy is RECOVERY and no recovery trigger fires, the engine reports
"continue" even though the computed strategy changed. -/
theorem action_switch_iff (s : RalphState) (a : TranscriptAnalysis) :
    (determineStrategy ⟨s, a⟩).action = "switch" ↔
      ((determineStrategy ⟨s, a⟩).strategy ≠ s.strategy.current ∧
       s.strategy.current ≠ Strategy.recovery) := by
  by_cases hrec : (a.repeated_errors.any (fun e => decide (REPEATED_ERROR_THRESHOLD ≤ e.count))
      || decide (STUCK_THRESHOLD ≤ s.progress.stuck_count)) = true
  · by_cases hc : s.strategy.current = Strategy.recovery
    · simp [determineStrategy, hrec, hc]
    · simp [determineStrategy, hrec, hc, Ne.symm hc]
  · rw [Bool.not_eq_true] at hrec
    by_cases hc : s.strategy.current = Strategy.recovery
    · simp [determineStrategy, hrec, hc]
    · by_cases hb : determineBaseStrategy s.iteration = s.strategy.current
      · simp [determineStrategy, hrec, hc, hb]
      · simp [determineStrategy, hrec, hc, hb]

end Ralph
